import Mathlib

/-!
Verification development for the chatapp backend core: the Redis-backed
session store (`src/backend/src/session-store.ts`), the REST session API
(`src/backend/src/session-api.ts`) and the WebSocket signaling relay
(`src/backend/src/signaling-service.ts`), shallowly embedded as pure
state-passing functions.  Machine time `Date.now()` is threaded as an
explicit `now : Int` (milliseconds); the Redis key space is a function
`String → Option RedisEntry` where an entry records the stored session
value and the instant at which the Redis-level TTL elapses.
-/

/-- Lifecycle status of a session (`'OPEN' | 'JOINED' | 'CLOSED'`). -/
inductive Status where
  | OPEN
  | JOINED
  | CLOSED
deriving DecidableEq, Repr

/-- The `Session` interface of `session-store.ts`.  `participant_count`
is a JS number mutated by `+= 1` and `Math.max(0, x - 1)`, so we embed it
as `Int`; the timestamps are millisecond clock readings. -/
structure Session where
  session_id : String
  expires_at : Int
  status : Status
  participant_count : Int
  created_at : Int
deriving DecidableEq, Repr

/-- One Redis key slot: the stored (JSON) session value together with
the absolute instant `expiresAtMs` at which the Redis TTL set by
`setEx` elapses (the key is readable strictly before that instant). -/
structure RedisEntry where
  value : Session
  expiresAtMs : Int
deriving DecidableEq, Repr

/-- The Redis key space visible to the session store. -/
def RedisStore : Type := String → Option RedisEntry

/-- The empty Redis key space. -/
def emptyStore : RedisStore := fun _ => none

/-- `getKey(sessionId)` of `session-store.ts`. -/
def getKey (sessionId : String) : String := "session:" ++ sessionId

/-- `client.get(key)`: the value if the key exists and its TTL has not
elapsed, otherwise `null`. -/
def redisGet (st : RedisStore) (now : Int) (key : String) : Option Session :=
  match st key with
  | none => none
  | some e => if now < e.expiresAtMs then some e.value else none

/-- `client.setEx(key, ttl, value)`: stores `value` under `key` with a
TTL of `ttl` seconds from `now`.  Redis rejects `SETEX` with
`ttl ≤ 0` (the promise rejects and no record is written), so this
model is faithful only for positive TTLs; every use below is guarded
accordingly — `updateSession` floors its TTL at 1, and the create path
is analysed under a positive-expiry hypothesis. -/
def redisSetEx (st : RedisStore) (now : Int) (key : String) (ttl : Int)
    (value : Session) : RedisStore :=
  fun k => if k = key then some ⟨value, now + ttl * 1000⟩ else st k

/-- `client.del(key)`. -/
def redisDel (st : RedisStore) (key : String) : RedisStore :=
  fun k => if k = key then none else st k

namespace SessionStore

/-- `SessionStore.createSession`: writes a fresh `OPEN` record with
participant count 0 and Redis TTL `expiresInSeconds`. -/
def createSession (st : RedisStore) (now : Int) (sessionId : String)
    (expiresInSeconds : Int) : Session × RedisStore :=
  let session : Session :=
    { session_id := sessionId
      expires_at := now + expiresInSeconds * 1000
      status := Status.OPEN
      participant_count := 0
      created_at := now }
  (session, redisSetEx st now (getKey sessionId) expiresInSeconds session)

/-- `SessionStore.deleteSession`. -/
def deleteSession (st : RedisStore) (sessionId : String) : RedisStore :=
  redisDel st (getKey sessionId)

/-- `SessionStore.getSession`: a Redis read followed by the logical
expiry check `Date.now() > session.expires_at`, which self-heals by
deleting the record and returning `null`. -/
def getSession (st : RedisStore) (now : Int) (sessionId : String) :
    Option Session × RedisStore :=
  match redisGet st now (getKey sessionId) with
  | none => (none, st)
  | some session =>
      if session.expires_at < now then (none, deleteSession st sessionId)
      else (some session, st)

/-- The refreshed TTL computed by `SessionStore.updateSession`:
`Math.max(1, Math.floor((expires_at - now) / 1000))`. -/
def remainTtl (session : Session) (now : Int) : Int :=
  max 1 (Int.fdiv (session.expires_at - now) 1000)

/-- `SessionStore.updateSession`: persists the record under a refreshed
TTL; the `else` branch is the (dead, since the TTL is floored at 1)
deletion path of the source. -/
def updateSession (st : RedisStore) (now : Int) (session : Session) :
    RedisStore :=
  let ttl := remainTtl session now
  if 0 < ttl then redisSetEx st now (getKey session.session_id) ttl session
  else redisDel st (getKey session.session_id)

/-- `SessionStore.joinSession`: re-reads the record, rejects when absent
or already at capacity, otherwise increments the count, recomputes the
status and persists. -/
def joinSession (st : RedisStore) (now : Int) (sessionId : String) :
    Option Session × RedisStore :=
  match getSession st now sessionId with
  | (none, st1) => (none, st1)
  | (some session, st1) =>
      if 2 ≤ session.participant_count then (none, st1)
      else
        let s1 := { session with
          participant_count := session.participant_count + 1 }
        let s2 :=
          if s1.participant_count = 1 then { s1 with status := Status.JOINED }
          else if s1.participant_count = 2 then
            { s1 with status := Status.CLOSED }
          else s1
        (some s2, updateSession st1 now s2)

/-- `SessionStore.leaveSession`: decrements the count floored at 0,
always recomputes the status, and persists via `updateSession`. -/
def leaveSession (st : RedisStore) (now : Int) (sessionId : String) :
    RedisStore :=
  match getSession st now sessionId with
  | (none, st1) => st1
  | (some session, st1) =>
      let s1 := { session with
        participant_count := max 0 (session.participant_count - 1) }
      let s2 := { s1 with status :=
        if s1.participant_count = 0 then Status.OPEN
        else if s1.participant_count = 1 then Status.JOINED
        else Status.CLOSED }
      updateSession st1 now s2

end SessionStore

/-- `DEFAULT_EXPIRY` of `session-api.ts` (15 minutes, in seconds). -/
def DEFAULT_EXPIRY : Int := 900

/-- `MAX_EXPIRY` of `session-api.ts` (1 hour, in seconds). -/
def MAX_EXPIRY : Int := 3600

/-- `req.body.expires_in_seconds || DEFAULT_EXPIRY`: an absent body
field and the JS-falsy number 0 both fall back to the default. -/
def requestedOrDefault (body : Option Int) : Int :=
  match body with
  | none => DEFAULT_EXPIRY
  | some v => if v = 0 then DEFAULT_EXPIRY else v

/-- The JSON body of the 201 response of `POST /sessions`. -/
structure CreateResponse where
  session_id : String
  expires_at : Int
  expires_in_seconds : Int
deriving DecidableEq, Repr

/-- The `POST /sessions` handler of `session-api.ts`: clamps the
requested expiry to `MAX_EXPIRY` (after the `||` default) and creates
the session under a fresh identifier. -/
def postSessions (st : RedisStore) (now : Int) (sessionId : String)
    (body : Option Int) : CreateResponse × RedisStore :=
  let expiresInSeconds := min (requestedOrDefault body) MAX_EXPIRY
  let res := SessionStore.createSession st now sessionId expiresInSeconds
  (⟨res.1.session_id, res.1.expires_at, expiresInSeconds⟩, res.2)

/-- `ws.readyState` of the `ws` library. -/
inductive ReadyState where
  | CONNECTING
  | OPEN
  | CLOSING
  | CLOSED
deriving DecidableEq, Repr

/-- The roles assigned by the relay. -/
inductive Role where
  | initiator
  | responder
deriving DecidableEq, Repr

/-- The `ClientInfo` record of `signaling-service.ts` (the `ws`
back-pointer is the map key and is not duplicated here). -/
structure ClientInfo where
  sessionId : String
  role : Role
  authenticated : Bool
deriving DecidableEq, Repr

/-- A JSON value, used for the opaque `payload` field. -/
inductive JsonValue where
  | null
  | bool (b : Bool)
  | num (n : Int)
  | str (s : String)
  | arr (elems : List JsonValue)
  | obj (fields : List (String × JsonValue))

/-- A parsed `SignalingMessage`: `type` is the raw tag string, the
other fields are optional exactly as in the TypeScript interface. -/
structure SignalingMessage where
  type : String
  sessionId : Option String := none
  proof : Option String := none
  payload : Option JsonValue := none

/-- The auth acknowledgment `{type: 'auth', payload: {success, role,
participant_count}}` built by `handleAuth`. -/
def authAckMsg (role : Role) (count : Int) : SignalingMessage :=
  { type := "auth"
    payload := some (JsonValue.obj
      [("success", JsonValue.bool true),
       ("role", JsonValue.str
         (match role with
          | Role.initiator => "initiator"
          | Role.responder => "responder")),
       ("participant_count", JsonValue.num count)]) }

/-- The `{type: 'ready', payload: {participants: 2}}` broadcast. -/
def readyMsg : SignalingMessage :=
  { type := "ready"
    payload := some (JsonValue.obj [("participants", JsonValue.num 2)]) }

/-- The `{type: 'error', payload: {error}}` message of `sendError`. -/
def errorMsg (error : String) : SignalingMessage :=
  { type := "error"
    payload := some (JsonValue.obj [("error", JsonValue.str error)]) }

/-- The mutable state of a `SignalingService` instance: the two
registries (`clients`, `sessions`), the backing Redis store, and the
list of messages handed to `ws.send`, in order, as `(socket, message)`
pairs.  Sockets are identified by `Nat`; their transport state
`readyState` is owned by the network and passed to each handler as a
separate function `rs`. -/
structure RelayState where
  clients : Nat → Option ClientInfo
  sessions : String → Option (List Nat)
  store : RedisStore
  outbox : List (Nat × SignalingMessage)

namespace SignalingService

/-- `SignalingService.send`: serializes and sends only when the target
transport is `OPEN`. -/
def send (rs : Nat → ReadyState) (st : RelayState) (ws : Nat)
    (message : SignalingMessage) : RelayState :=
  if rs ws = ReadyState.OPEN then
    { st with outbox := st.outbox ++ [(ws, message)] }
  else st

/-- `SignalingService.sendError`. -/
def sendError (rs : Nat → ReadyState) (st : RelayState) (ws : Nat)
    (error : String) : RelayState :=
  send rs st ws (errorMsg error)

/-- The staleness test of the reconciliation pass:
`readyState === CLOSED || readyState === CLOSING`. -/
def isStale (rs : Nat → ReadyState) (c : Nat) : Bool :=
  rs c == ReadyState.CLOSED || rs c == ReadyState.CLOSING

/-- The `cleanedCount` compensating `leave` calls issued to the store. -/
def applyLeaves (n : Nat) (st : RedisStore) (now : Int) (sessionId : String) :
    RedisStore :=
  match n with
  | 0 => st
  | n + 1 => applyLeaves n (SessionStore.leaveSession st now sessionId) now sessionId

/-- `SignalingService.handleAuth`: checks the session in the store,
runs the reconciliation pass (evicting stale transports and issuing one
compensating `leave` per eviction), enforces the two-connection cap,
joins the session in the store, assigns the role from the post-cleanup
registry size, registers the client, acknowledges, and broadcasts
`ready` when the session reaches two connections. -/
def handleAuth (rs : Nat → ReadyState) (now : Int) (st : RelayState)
    (ws : Nat) (message : SignalingMessage) : RelayState :=
  match message.sessionId with
  | none => sendError rs st ws "Missing session ID"
  | some sid =>
      let gres := SessionStore.getSession st.store now sid
      let st0 : RelayState := { st with store := gres.2 }
      match gres.1 with
      | none => sendError rs st0 ws "Session expired or not found"
      | some _ =>
          let sessionClients := (st0.sessions sid).getD []
          let staleClients := sessionClients.filter (fun c => isStale rs c)
          let liveClients := sessionClients.filter (fun c => !(isStale rs c))
          let cleanedCount := staleClients.length
          let st1 : RelayState := { st0 with
            sessions :=
              if (st0.sessions sid).isSome then
                fun s => if s = sid then some liveClients else st0.sessions s
              else st0.sessions
            clients := fun w =>
              if staleClients.contains w then none else st0.clients w
            store := applyLeaves cleanedCount st0.store now sid }
          if 2 ≤ liveClients.length then sendError rs st1 ws "Session is full"
          else
            let jres := SessionStore.joinSession st1.store now sid
            let st2 : RelayState := { st1 with store := jres.2 }
            match jres.1 with
            | none => sendError rs st2 ws "Session is full"
            | some _ =>
                let role : Role :=
                  if liveClients.length = 0 then Role.initiator
                  else Role.responder
                let clientInfo : ClientInfo :=
                  { sessionId := sid, role := role, authenticated := true }
                let sessionClients2 :=
                  if liveClients.contains ws then liveClients
                  else liveClients ++ [ws]
                let st3 : RelayState := { st2 with
                  clients := fun w =>
                    if w = ws then some clientInfo else st2.clients w
                  sessions := fun s =>
                    if s = sid then some sessionClients2 else st2.sessions s }
                let st4 := send rs st3 ws
                  (authAckMsg role sessionClients2.length)
                if sessionClients2.length = 2 then
                  sessionClients2.foldl (fun acc c => send rs acc c readyMsg) st4
                else st4

/-- `SignalingService.relayMessage`: forwards the message object
unchanged to every other open socket registered for the sender's
session. -/
def relayMessage (rs : Nat → ReadyState) (st : RelayState) (ws : Nat)
    (message : SignalingMessage) : RelayState :=
  match st.clients ws with
  | none => sendError rs st ws "Not authenticated"
  | some clientInfo =>
      if !clientInfo.authenticated then sendError rs st ws "Not authenticated"
      else
        match st.sessions clientInfo.sessionId with
        | none => sendError rs st ws "Session not found"
        | some sessionClients =>
            sessionClients.foldl
              (fun acc c =>
                if c ≠ ws ∧ rs c = ReadyState.OPEN then send rs acc c message
                else acc)
              st

/-- `SignalingService.handleMessage`: dispatch on the message tag. -/
def handleMessage (rs : Nat → ReadyState) (now : Int) (st : RelayState)
    (ws : Nat) (message : SignalingMessage) : RelayState :=
  match message.type with
  | "auth" => handleAuth rs now st ws message
  | "offer" => relayMessage rs st ws message
  | "answer" => relayMessage rs st ws message
  | "ice-candidate" => relayMessage rs st ws message
  | _ => sendError rs st ws "Unknown message type"

end SignalingService

/-- The state update a successful `joinSession` applies to the record. -/
def joinStep (s : Session) : Session :=
  let s1 := { s with participant_count := s.participant_count + 1 }
  if s1.participant_count = 1 then { s1 with status := Status.JOINED }
  else if s1.participant_count = 2 then { s1 with status := Status.CLOSED }
  else s1

/-- The state update `leaveSession` applies to a live record. -/
def leaveStep (s : Session) : Session :=
  let s1 := { s with participant_count := max 0 (s.participant_count - 1) }
  { s1 with status :=
    if s1.participant_count = 0 then Status.OPEN
    else if s1.participant_count = 1 then Status.JOINED
    else Status.CLOSED }

theorem remainTtl_pos (s : Session) (now : Int) :
    1 ≤ SessionStore.remainTtl s now :=
  le_max_left 1 _

theorem updateSession_eq (st : RedisStore) (now : Int) (s : Session) :
    SessionStore.updateSession st now s =
      redisSetEx st now (getKey s.session_id) (SessionStore.remainTtl s now) s := by
  unfold SessionStore.updateSession
  rw [if_pos (lt_of_lt_of_le zero_lt_one (remainTtl_pos s now))]

theorem getSession_live (st : RedisStore) (now : Int) (sid : String)
    (e : RedisEntry) (he : st (getKey sid) = some e)
    (h1 : now < e.expiresAtMs) (h2 : ¬ e.value.expires_at < now) :
    SessionStore.getSession st now sid = (some e.value, st) := by
  unfold SessionStore.getSession redisGet
  rw [he]
  simp [h1, h2]

theorem getSession_logicallyExpired (st : RedisStore) (now : Int)
    (sid : String) (e : RedisEntry) (he : st (getKey sid) = some e)
    (h1 : now < e.expiresAtMs) (h2 : e.value.expires_at < now) :
    SessionStore.getSession st now sid = (none, redisDel st (getKey sid)) := by
  unfold SessionStore.getSession redisGet SessionStore.deleteSession
  rw [he]
  simp [h1, h2]

theorem joinSession_live (st : RedisStore) (now : Int) (sid : String)
    (e : RedisEntry) (he : st (getKey sid) = some e)
    (h1 : now < e.expiresAtMs) (h2 : ¬ e.value.expires_at < now)
    (hc : ¬ 2 ≤ e.value.participant_count) :
    SessionStore.joinSession st now sid =
      (some (joinStep e.value),
        SessionStore.updateSession st now (joinStep e.value)) := by
  unfold SessionStore.joinSession
  rw [getSession_live st now sid e he h1 h2]
  simp [hc, joinStep]

theorem leaveSession_live (st : RedisStore) (now : Int) (sid : String)
    (e : RedisEntry) (he : st (getKey sid) = some e)
    (h1 : now < e.expiresAtMs) (h2 : ¬ e.value.expires_at < now) :
    SessionStore.leaveSession st now sid =
      SessionStore.updateSession st now (leaveStep e.value) := by
  unfold SessionStore.leaveSession
  rw [getSession_live st now sid e he h1 h2]
  simp [leaveStep]

theorem joinSession_none_of_getSession_none (st : RedisStore) (now : Int)
    (sid : String) (hg : (SessionStore.getSession st now sid).1 = none) :
    (SessionStore.joinSession st now sid).1 = none := by
  unfold SessionStore.joinSession
  rcases hgs : SessionStore.getSession st now sid with ⟨o, st1⟩
  rw [hgs] at hg
  simp at hg
  subst hg
  rfl

theorem getSession_none_of_key_absent (st : RedisStore) (now : Int)
    (sid : String) (hk : st (getKey sid) = none) :
    (SessionStore.getSession st now sid).1 = none := by
  unfold SessionStore.getSession redisGet
  rw [hk]

/-- A store holding one freshly created session `"s"` (TTL 5 s at t=0). -/
def demoLive : RedisStore := (SessionStore.createSession emptyStore 0 "s" 5).2

/-- `demoLive` after a `join` at t=4.5 s: the refreshed Redis TTL is
floored at 1 s, so the Redis key now outlives the logical expiry. -/
def demoStale : RedisStore := (SessionStore.joinSession demoLive 4500 "s").2

/-- C7: `get(id)` returns the session record if it is present and
unexpired; if the stored logical expiry has passed, `get` deletes the
record and returns absent, and a subsequent `join` on that id is
rejected (returns no session). -/
theorem getSession_selfheal_join_rejected :
    (∀ (st : RedisStore) (now : Int) (sid : String) (e : RedisEntry),
      st (getKey sid) = some e → now < e.expiresAtMs →
      ¬ e.value.expires_at < now →
      SessionStore.getSession st now sid = (some e.value, st)) ∧
    (∀ (st : RedisStore) (now : Int) (sid : String) (e : RedisEntry),
      st (getKey sid) = some e → now < e.expiresAtMs →
      e.value.expires_at < now →
      SessionStore.getSession st now sid = (none, redisDel st (getKey sid)) ∧
      redisDel st (getKey sid) (getKey sid) = none) ∧
    (∀ (st : RedisStore) (now : Int) (sid : String),
      st (getKey sid) = none → (SessionStore.joinSession st now sid).1 = none) := by
  refine ⟨fun st now sid e he h1 h2 => getSession_live st now sid e he h1 h2,
    fun st now sid e he h1 h2 =>
      ⟨getSession_logicallyExpired st now sid e he h1 h2, ?_⟩,
    fun st now sid hk =>
      joinSession_none_of_getSession_none st now sid
        (getSession_none_of_key_absent st now sid hk)⟩
  unfold redisDel
  simp

/-- Witness for C7 at concrete inputs: a live read at t=1 s, a
self-healing read of the logically expired record at t=5.2 s, and a
rejected `join` against the empty store. -/
theorem getSession_selfheal_join_rejected_witness :
    SessionStore.getSession demoLive 1000 "s" =
      (some ⟨"s", 5000, Status.OPEN, 0, 0⟩, demoLive) ∧
    SessionStore.getSession demoStale 5200 "s" =
      (none, redisDel demoStale (getKey "s")) ∧
    (SessionStore.joinSession emptyStore 0 "s").1 = none :=
  ⟨getSession_selfheal_join_rejected.1 demoLive 1000 "s"
      ⟨⟨"s", 5000, Status.OPEN, 0, 0⟩, 5000⟩ (by decide) (by decide) (by decide),
   (getSession_selfheal_join_rejected.2.1 demoStale 5200 "s"
      ⟨⟨"s", 5000, Status.JOINED, 1, 0⟩, 5500⟩ (by decide) (by decide) (by decide)).1,
   getSession_selfheal_join_rejected.2.2 emptyStore 0 "s" (by decide)⟩

/-- Counterexample to C8 as stated: on a record whose logical expiry
has passed while its Redis TTL is still running (reachable: `join` at
t=4.5 s refreshes the TTL to the floor of 1 s), `leave` at t=5.2 s
deletes the record through the self-healing read inside `getSession`. -/
theorem leave_deletes_logicallyExpired :
    (demoStale (getKey "s")).isSome = true ∧
    SessionStore.leaveSession demoStale 5200 "s" (getKey "s") = none := by
  constructor
  · decide
  · decide

/-- C8 (amended): on a record that is present and unexpired, `leave`
decrements the participant count floored at 0, recomputes the status,
persists, and never deletes the record; repeated `leave` at count 0
keeps the count at 0, never negative. -/
theorem leave_floor_persists (st : RedisStore) (now : Int) (sid : String)
    (e : RedisEntry) (he : st (getKey sid) = some e)
    (h1 : now < e.expiresAtMs) (h2 : ¬ e.value.expires_at < now)
    (hid : e.value.session_id = sid) :
    SessionStore.leaveSession st now sid (getKey sid) =
      some ⟨leaveStep e.value,
        now + SessionStore.remainTtl (leaveStep e.value) now * 1000⟩ ∧
    (leaveStep e.value).participant_count =
      max 0 (e.value.participant_count - 1) ∧
    0 ≤ (leaveStep e.value).participant_count ∧
    (e.value.participant_count = 0 → (leaveStep e.value).participant_count = 0) ∧
    (leaveStep e.value).status =
      (if (leaveStep e.value).participant_count = 0 then Status.OPEN
       else if (leaveStep e.value).participant_count = 1 then Status.JOINED
       else Status.CLOSED) := by
  have hkey : (leaveStep e.value).session_id = sid := by
    simp [leaveStep, hid]
  refine ⟨?_, by simp [leaveStep], by simp [leaveStep], ?_, by simp [leaveStep]⟩
  · rw [leaveSession_live st now sid e he h1 h2, updateSession_eq, hkey]
    unfold redisSetEx
    simp
  · intro h0
    simp [leaveStep, h0]

/-- Witness for C8 (amended) on the fresh count-0 record: `leave` at
t=1 s keeps the count at 0 and the record stored. -/
theorem leave_floor_persists_witness :
    SessionStore.leaveSession demoLive 1000 "s" (getKey "s") =
      some ⟨leaveStep ⟨"s", 5000, Status.OPEN, 0, 0⟩,
        1000 + SessionStore.remainTtl
          (leaveStep ⟨"s", 5000, Status.OPEN, 0, 0⟩) 1000 * 1000⟩ ∧
    (leaveStep (⟨"s", 5000, Status.OPEN, 0, 0⟩ : Session)).participant_count = 0 :=
  ⟨(leave_floor_persists demoLive 1000 "s" ⟨⟨"s", 5000, Status.OPEN, 0, 0⟩, 5000⟩
      (by decide) (by decide) (by decide) (by decide)).1,
   (leave_floor_persists demoLive 1000 "s" ⟨⟨"s", 5000, Status.OPEN, 0, 0⟩, 5000⟩
      (by decide) (by decide) (by decide) (by decide)).2.2.2.1 rfl⟩

/-- Counterexample to C9 as stated: a requested expiry of 0 seconds is
JS-falsy, so `expires_in_seconds || DEFAULT_EXPIRY` replaces it with
the 900-second default instead of `min 0 MAX_EXPIRY = 0`. -/
theorem create_zero_expiry_defaulted :
    (postSessions emptyStore 0 "s" (some 0)).1.expires_in_seconds = 900 ∧
    ¬ (postSessions emptyStore 0 "s" (some 0)).1.expires_in_seconds =
        min 0 MAX_EXPIRY := by
  constructor
  · decide
  · decide

/-- C9 (amended): whenever the effective requested expiry is positive
— so that the backing store's `SETEX` succeeds (it rejects TTLs ≤ 0
and then no record is written) — creating a session writes a new
record with status `OPEN` and `participant_count` 0, whose TTL equals
`min(expirySeconds, MAX_EXPIRY)` for every provided positive requested
expiry; a missing or zero (JS-falsy) request is first replaced by
`DEFAULT_EXPIRY`. -/
theorem create_writes_open_clamped (st : RedisStore) (now : Int)
    (sid : String) (body : Option Int)
    (hpos : 0 < requestedOrDefault body) :
    (postSessions st now sid body).1.expires_in_seconds =
      min (requestedOrDefault body) MAX_EXPIRY ∧
    (∀ v : Int, body = some v → 0 < v →
      (postSessions st now sid body).1.expires_in_seconds = min v MAX_EXPIRY) ∧
    (postSessions st now sid body).2 (getKey sid) =
      some ⟨⟨sid, now + min (requestedOrDefault body) MAX_EXPIRY * 1000,
             Status.OPEN, 0, now⟩,
            now + min (requestedOrDefault body) MAX_EXPIRY * 1000⟩ := by
  refine ⟨rfl, ?_, ?_⟩
  · intro v hv hv0
    subst hv
    have hne : v ≠ 0 := by omega
    simp [postSessions, requestedOrDefault, hne]
  · simp [postSessions, SessionStore.createSession, redisSetEx]

/-- The status dictated by a participant count. -/
def statusOfCount (n : Int) : Status :=
  if n = 0 then Status.OPEN
  else if n = 1 then Status.JOINED
  else Status.CLOSED

theorem joinStep_count (s : Session) :
    (joinStep s).participant_count = s.participant_count + 1 := by
  simp only [joinStep]
  split_ifs <;> rfl

theorem joinStep_session_id (s : Session) :
    (joinStep s).session_id = s.session_id := by
  simp only [joinStep]
  split_ifs <;> rfl

theorem joinStep_status (s : Session) :
    (joinStep s).status =
      (if s.participant_count + 1 = 1 then Status.JOINED
       else if s.participant_count + 1 = 2 then Status.CLOSED
       else s.status) := by
  simp only [joinStep]
  split_ifs <;> rfl

theorem leaveStep_count (s : Session) :
    (leaveStep s).participant_count = max 0 (s.participant_count - 1) := by
  simp only [leaveStep]

theorem leaveStep_session_id (s : Session) :
    (leaveStep s).session_id = s.session_id := by
  simp only [leaveStep]

theorem leaveStep_status (s : Session) :
    (leaveStep s).status = statusOfCount (leaveStep s).participant_count := by
  simp only [leaveStep, statusOfCount]

theorem leaveStep_expires (s : Session) :
    (leaveStep s).expires_at = s.expires_at := by
  simp only [leaveStep]

/-- The participant count a reader of the store observes for `sid`
(0 when no record is stored). -/
def obsCount (st : RedisStore) (sid : String) : Int :=
  match st (getKey sid) with
  | some e => e.value.participant_count
  | none => 0

theorem obsCount_del_self (st : RedisStore) (sid : String) :
    obsCount (redisDel st (getKey sid)) sid = 0 := by
  unfold obsCount redisDel
  simp

theorem obsCount_setEx (st : RedisStore) (now : Int) (key : String)
    (ttl : Int) (v : Session) (sid : String) :
    obsCount (redisSetEx st now key ttl v) sid =
      if getKey sid = key then v.participant_count else obsCount st sid := by
  unfold obsCount redisSetEx
  by_cases hkk : getKey sid = key <;> simp [hkk]

theorem obsCount_join_le (st : RedisStore) (now : Int) (sid : String)
    (h : obsCount st sid ≤ 2) :
    obsCount (SessionStore.joinSession st now sid).2 sid ≤ 2 := by
  rcases hk : st (getKey sid) with _ | e
  · have hg : SessionStore.getSession st now sid = (none, st) := by
      unfold SessionStore.getSession redisGet
      rw [hk]
    unfold SessionStore.joinSession
    rw [hg]
    exact h
  · by_cases h1 : now < e.expiresAtMs
    case neg =>
      have hg : SessionStore.getSession st now sid = (none, st) := by
        unfold SessionStore.getSession redisGet
        rw [hk]
        simp [h1]
      unfold SessionStore.joinSession
      rw [hg]
      exact h
    by_cases h2 : e.value.expires_at < now
    · have hg := getSession_logicallyExpired st now sid e hk h1 h2
      unfold SessionStore.joinSession
      rw [hg]
      rw [obsCount_del_self]
      decide
    · by_cases hc : 2 ≤ e.value.participant_count
      · have hg := getSession_live st now sid e hk h1 h2
        unfold SessionStore.joinSession
        rw [hg]
        simp only [hc, if_pos]
        exact h
      · have hcount : e.value.participant_count ≤ 2 := by
          unfold obsCount at h
          rw [hk] at h
          exact h
        rw [joinSession_live st now sid e hk h1 h2 hc]
        rw [updateSession_eq]
        rw [obsCount_setEx]
        by_cases hkey : getKey sid = getKey (joinStep e.value).session_id
        · rw [if_pos hkey, joinStep_count]
          omega
        · rw [if_neg hkey]
          exact h

theorem obsCount_joins_le (sid : String) (joins : List Int)
    (st : RedisStore) (h : obsCount st sid ≤ 2) :
    obsCount (joins.foldl (fun s t => (SessionStore.joinSession s t sid).2) st)
      sid ≤ 2 := by
  induction joins generalizing st with
  | nil => exact h
  | cons t ts ih => exact ih _ (obsCount_join_le st t sid h)

theorem obsCount_create (now0 expiry : Int) (sid : String) :
    obsCount (SessionStore.createSession emptyStore now0 sid expiry).2 sid = 0 := by
  unfold obsCount SessionStore.createSession redisSetEx
  simp

/-- C1: against a fresh session, for every sequence of `join` calls
the observed `participant_count` never exceeds 2; `join` increments the
count if and only if the record exists, is unexpired (so `get` yields
it), and the count is below 2, and otherwise returns no session. -/
theorem joinSession_capacity_two :
    (∀ (sid : String) (now0 expiry : Int) (joins : List Int),
      obsCount (joins.foldl (fun s t => (SessionStore.joinSession s t sid).2)
        (SessionStore.createSession emptyStore now0 sid expiry).2) sid ≤ 2) ∧
    (∀ (st : RedisStore) (now : Int) (sid : String),
      ((SessionStore.joinSession st now sid).1.isSome ↔
        ∃ s, (SessionStore.getSession st now sid).1 = some s ∧
          s.participant_count < 2)) ∧
    (∀ (st : RedisStore) (now : Int) (sid : String) (s : Session),
      (SessionStore.getSession st now sid).1 = some s →
      s.participant_count < 2 →
      ∃ s', (SessionStore.joinSession st now sid).1 = some s' ∧
        s'.participant_count = s.participant_count + 1) := by
  refine ⟨?_, ?_, ?_⟩
  · intro sid now0 expiry joins
    exact obsCount_joins_le sid joins _ (le_of_eq_of_le (obsCount_create now0 expiry sid) (by decide))
  · intro st now sid
    unfold SessionStore.joinSession
    rcases hg : SessionStore.getSession st now sid with ⟨o, st1⟩
    rcases o with _ | s
    · simp
    · by_cases hc : 2 ≤ s.participant_count <;> simp [hc] <;> omega
  · intro st now sid s hg hc
    unfold SessionStore.joinSession
    rcases hgp : SessionStore.getSession st now sid with ⟨o, st1⟩
    rw [hgp] at hg
    simp only at hg
    subst hg
    have hc2 : ¬ 2 ≤ s.participant_count := by omega
    simp only [hc2, if_neg, not_false_iff]
    exact ⟨joinStep s, rfl, joinStep_count s⟩

/-- Witness for C1: three joins against a fresh session stay at count
≤ 2; a `join` against the fresh demo store succeeds and increments the
count from 0 to 1. -/
theorem joinSession_capacity_two_witness :
    obsCount ([(1000 : Int), 2000, 3000].foldl
      (fun s t => (SessionStore.joinSession s t "s").2)
      (SessionStore.createSession emptyStore 0 "s" 100).2) "s" ≤ 2 ∧
    (∃ s', (SessionStore.joinSession demoLive 1000 "s").1 = some s' ∧
      s'.participant_count = (0 : Int) + 1) :=
  ⟨joinSession_capacity_two.1 "s" 0 100 [1000, 2000, 3000],
   joinSession_capacity_two.2.2 demoLive 1000 "s" ⟨"s", 5000, Status.OPEN, 0, 0⟩
     (by decide) (by decide)⟩

theorem send_clients (rs : Nat → ReadyState) (st : RelayState) (ws : Nat)
    (m : SignalingMessage) :
    (SignalingService.send rs st ws m).clients = st.clients := by
  unfold SignalingService.send
  split_ifs <;> rfl

theorem send_sessions (rs : Nat → ReadyState) (st : RelayState) (ws : Nat)
    (m : SignalingMessage) :
    (SignalingService.send rs st ws m).sessions = st.sessions := by
  unfold SignalingService.send
  split_ifs <;> rfl

theorem send_store (rs : Nat → ReadyState) (st : RelayState) (ws : Nat)
    (m : SignalingMessage) :
    (SignalingService.send rs st ws m).store = st.store := by
  unfold SignalingService.send
  split_ifs <;> rfl

theorem send_of_open (rs : Nat → ReadyState) (st : RelayState) (ws : Nat)
    (m : SignalingMessage) (h : rs ws = ReadyState.OPEN) :
    SignalingService.send rs st ws m =
      { st with outbox := st.outbox ++ [(ws, m)] } := by
  unfold SignalingService.send
  rw [if_pos h]

theorem send_outbox_mem (rs : Nat → ReadyState) (st : RelayState) (ws : Nat)
    (m : SignalingMessage) (x : Nat × SignalingMessage)
    (hx : x ∈ st.outbox) : x ∈ (SignalingService.send rs st ws m).outbox := by
  unfold SignalingService.send
  split_ifs
  · exact List.mem_append_left _ hx
  · exact hx

theorem foldlSend_clients (rs : Nat → ReadyState) (m : SignalingMessage) :
    ∀ (cs : List Nat) (st : RelayState),
    (cs.foldl (fun acc c => SignalingService.send rs acc c m) st).clients =
      st.clients := by
  intro cs
  induction cs with
  | nil => intro st; rfl
  | cons c cs' ih =>
      intro st
      rw [List.foldl_cons, ih, send_clients]

theorem foldlSend_sessions (rs : Nat → ReadyState) (m : SignalingMessage) :
    ∀ (cs : List Nat) (st : RelayState),
    (cs.foldl (fun acc c => SignalingService.send rs acc c m) st).sessions =
      st.sessions := by
  intro cs
  induction cs with
  | nil => intro st; rfl
  | cons c cs' ih =>
      intro st
      rw [List.foldl_cons, ih, send_sessions]

theorem foldlSend_store (rs : Nat → ReadyState) (m : SignalingMessage) :
    ∀ (cs : List Nat) (st : RelayState),
    (cs.foldl (fun acc c => SignalingService.send rs acc c m) st).store =
      st.store := by
  intro cs
  induction cs with
  | nil => intro st; rfl
  | cons c cs' ih =>
      intro st
      rw [List.foldl_cons, ih, send_store]

theorem foldlSend_outbox_mem (rs : Nat → ReadyState) (m : SignalingMessage) :
    ∀ (cs : List Nat) (st : RelayState) (x : Nat × SignalingMessage),
    x ∈ st.outbox →
    x ∈ (cs.foldl (fun acc c => SignalingService.send rs acc c m) st).outbox := by
  intro cs
  induction cs with
  | nil => intro st x hx; exact hx
  | cons c cs' ih =>
      intro st x hx
      rw [List.foldl_cons]
      exact ih _ x (send_outbox_mem rs st c m x hx)

/-- The recipients of a relayed message: every registered socket of the
session other than the sender whose transport is open. -/
def relayTargets (rs : Nat → ReadyState) (ws : Nat) (cs : List Nat) :
    List Nat :=
  cs.filter (fun c => decide (c ≠ ws ∧ rs c = ReadyState.OPEN))

theorem relayFold_eq (rs : Nat → ReadyState) (ws : Nat)
    (m : SignalingMessage) :
    ∀ (cs : List Nat) (st : RelayState),
    cs.foldl
      (fun acc c =>
        if c ≠ ws ∧ rs c = ReadyState.OPEN then SignalingService.send rs acc c m
        else acc) st =
      { st with outbox :=
          st.outbox ++ (relayTargets rs ws cs).map (fun c => (c, m)) } := by
  intro cs
  induction cs with
  | nil => intro st; simp [relayTargets]
  | cons c cs' ih =>
      intro st
      rw [List.foldl_cons]
      by_cases hcond : c ≠ ws ∧ rs c = ReadyState.OPEN
      · rw [if_pos hcond, send_of_open rs st c m hcond.2, ih]
        simp [relayTargets, hcond]
      · rw [if_neg hcond, ih]
        simp [relayTargets, hcond]

theorem relayMessage_eq (rs : Nat → ReadyState) (st : RelayState) (ws : Nat)
    (m : SignalingMessage) (ci : ClientInfo) (cs : List Nat)
    (hci : st.clients ws = some ci) (hauth : ci.authenticated = true)
    (hcs : st.sessions ci.sessionId = some cs) :
    SignalingService.relayMessage rs st ws m =
      { st with outbox :=
          st.outbox ++ (relayTargets rs ws cs).map (fun c => (c, m)) } := by
  unfold SignalingService.relayMessage
  rw [hci]
  simp only [hauth, Bool.not_true, hcs]
  exact relayFold_eq rs ws m cs st

/-- C3: the relay's authentication decision depends only on the
`sessionId` of the `auth` message: the capability secret and the proof
derivable from it (`CryptoEngine.deriveProof`, computed client-side,
never sent by `SessionManager.authenticate`) are not consulted, so two
auth attempts differing only in their `proof` field produce identical
relay behaviour — the same resulting registries, store and outgoing
responses (hence the same success, role and participant_count). -/
theorem auth_ignores_proof (rs : Nat → ReadyState) (now : Int)
    (st : RelayState) (ws : Nat) (sid : Option String)
    (payload : Option JsonValue) (p1 p2 : Option String) :
    SignalingService.handleAuth rs now st ws
      { type := "auth", sessionId := sid, proof := p1, payload := payload } =
    SignalingService.handleAuth rs now st ws
      { type := "auth", sessionId := sid, proof := p2, payload := payload } :=
  rfl

/-- C2: a non-auth signaling message (`offer`, `answer`,
`ice-candidate`) sent by an authenticated connection is forwarded by
the relay to every other open connection of the same session as the
identical message object — type and payload unchanged — and the relay
state (registries and store) is otherwise untouched; the payload is
never inspected or mutated. -/
theorem relay_delivers_verbatim (rs : Nat → ReadyState) (now : Int)
    (st : RelayState) (ws : Nat) (m : SignalingMessage) (ci : ClientInfo)
    (cs : List Nat)
    (htype : m.type = "offer" ∨ m.type = "answer" ∨ m.type = "ice-candidate")
    (hci : st.clients ws = some ci) (hauth : ci.authenticated = true)
    (hcs : st.sessions ci.sessionId = some cs) :
    SignalingService.handleMessage rs now st ws m =
      { st with outbox :=
          st.outbox ++ (relayTargets rs ws cs).map (fun c => (c, m)) } := by
  have hrelay := relayMessage_eq rs st ws m ci cs hci hauth hcs
  rcases htype with h | h | h <;>
    · unfold SignalingService.handleMessage
      rw [h]
      exact hrelay

/-- A relay state with two authenticated connections 1 and 2 in
session `"s"`. -/
def demoRelay : RelayState :=
  { clients := fun w =>
      if w = 1 then some ⟨"s", Role.initiator, true⟩
      else if w = 2 then some ⟨"s", Role.responder, true⟩ else none
    sessions := fun s => if s = "s" then some [1, 2] else none
    store := demoLive
    outbox := [] }

/-- All transports open. -/
def allOpen : Nat → ReadyState := fun _ => ReadyState.OPEN

/-- An `offer` carrying an opaque payload `"P"`. -/
def offerP : SignalingMessage :=
  { type := "offer", payload := some (JsonValue.str "P") }

/-- Witness for C2: the `offer` with opaque payload from socket 1 is
delivered to socket 2 as the identical message. -/
theorem relay_delivers_verbatim_witness :
    SignalingService.handleMessage allOpen 0 demoRelay 1 offerP =
      { demoRelay with outbox :=
          demoRelay.outbox ++
            (relayTargets allOpen 1 [1, 2]).map (fun c => (c, offerP)) } :=
  relay_delivers_verbatim allOpen 0 demoRelay 1 offerP
    ⟨"s", Role.initiator, true⟩ [1, 2] (Or.inl rfl) rfl rfl rfl

theorem isStale_open (rs : Nat → ReadyState) (c : Nat)
    (h : rs c = ReadyState.OPEN) : SignalingService.isStale rs c = false := by
  simp [SignalingService.isStale, h]

theorem filter_stale_nil (rs : Nat → ReadyState) (cs : List Nat)
    (hopen : ∀ c ∈ cs, rs c = ReadyState.OPEN) :
    cs.filter (fun c => SignalingService.isStale rs c) = [] := by
  rw [List.filter_eq_nil_iff]
  intro c hc
  simp [isStale_open rs c (hopen c hc)]

theorem filter_live_self (rs : Nat → ReadyState) (cs : List Nat)
    (hopen : ∀ c ∈ cs, rs c = ReadyState.OPEN) :
    cs.filter (fun c => !(SignalingService.isStale rs c)) = cs := by
  rw [List.filter_eq_self]
  intro c hc
  simp [isStale_open rs c (hopen c hc)]

theorem fun_update_lookup {α β : Type} [DecidableEq α] (f : α → Option β)
    (a : α) (b : β) (h : f a = some b) :
    (fun s => if s = a then some b else f s) = f := by
  funext s
  by_cases hs : s = a
  · rw [if_pos hs, hs, h]
  · rw [if_neg hs]

/-- C4: a third authentication attempt against a session that already
has two live, open connections is rejected with a `Session is full`
error sent to the attempting connection, and the registries, the store
record and the two existing connections are left unchanged. -/
theorem third_auth_rejected (rs : Nat → ReadyState) (now : Int)
    (st : RelayState) (ws : Nat) (sid : String)
    (pf : Option String) (pl : Option JsonValue)
    (e : RedisEntry) (cs : List Nat)
    (he : st.store (getKey sid) = some e) (h1 : now < e.expiresAtMs)
    (h2 : ¬ e.value.expires_at < now)
    (hcs : st.sessions sid = some cs) (hlen : cs.length = 2)
    (hopen : ∀ c ∈ cs, rs c = ReadyState.OPEN)
    (hws : rs ws = ReadyState.OPEN) :
    SignalingService.handleAuth rs now st ws
      { type := "auth", sessionId := some sid, proof := pf, payload := pl } =
      { st with outbox := st.outbox ++ [(ws, errorMsg "Session is full")] } := by
  have hgs := getSession_live st.store now sid e he h1 h2
  have hstale := filter_stale_nil rs cs hopen
  have hlive := filter_live_self rs cs hopen
  have hupd := fun_update_lookup st.sessions sid cs hcs
  unfold SignalingService.handleAuth
  simp only [hgs, hcs, Option.getD_some, hstale, hlive, Option.isSome_some,
    if_true, hupd, List.length_nil, hlen, SignalingService.applyLeaves,
    List.not_mem_nil, if_false, le_refl, if_pos]
  unfold SignalingService.sendError
  rw [send_of_open rs _ ws _ hws]
  rfl

theorem contains_filter_stale_false (rs : Nat → ReadyState) (w : Nat)
    (hw : SignalingService.isStale rs w = false) (l : List Nat) :
    (l.filter (fun c => SignalingService.isStale rs c)).contains w = false := by
  cases hc : (l.filter (fun c => SignalingService.isStale rs c)).contains w
  · rfl
  · exfalso
    have hmem : w ∈ l.filter (fun c => SignalingService.isStale rs c) :=
      List.mem_of_elem_eq_true hc
    have hst := (List.mem_filter.mp hmem).2
    rw [hw] at hst
    exact Bool.false_ne_true hst

theorem handleAuth_clients_other (rs : Nat → ReadyState) (now : Int)
    (st : RelayState) (ws2 : Nat) (m : SignalingMessage) (w : Nat)
    (hne : w ≠ ws2) (hw : SignalingService.isStale rs w = false) :
    (SignalingService.handleAuth rs now st ws2 m).clients w = st.clients w := by
  have hcont := fun l => contains_filter_stale_false rs w hw l
  unfold SignalingService.handleAuth
  cases hsid : m.sessionId with
  | none =>
      unfold SignalingService.sendError
      rw [send_clients]
  | some sid =>
      rcases hg : SessionStore.getSession st.store now sid with ⟨o, store1⟩
      rcases o with _ | sess
      · simp only [hg]
        unfold SignalingService.sendError
        rw [send_clients]
      · simp only [hg]
        repeat' split
        all_goals
          first
          | (unfold SignalingService.sendError
             rw [send_clients]
             simp only [hcont, Bool.false_eq_true, if_false])
          | (rw [foldlSend_clients, send_clients]
             simp only [if_neg hne, hcont, Bool.false_eq_true, if_false])
          | (rw [send_clients]
             simp only [if_neg hne, hcont, Bool.false_eq_true, if_false])

theorem relayMessage_clients (rs : Nat → ReadyState) (st : RelayState)
    (ws2 : Nat) (m : SignalingMessage) :
    (SignalingService.relayMessage rs st ws2 m).clients = st.clients := by
  unfold SignalingService.relayMessage
  repeat' split
  all_goals
    first
    | (unfold SignalingService.sendError
       rw [send_clients])
    | rw [relayFold_eq]

theorem handleAuth_success (rs : Nat → ReadyState) (now : Int)
    (st : RelayState) (ws : Nat) (sid : String)
    (pf : Option String) (pl : Option JsonValue)
    (e : RedisEntry) (cs : List Nat)
    (he : st.store (getKey sid) = some e) (h1 : now < e.expiresAtMs)
    (h2 : ¬ e.value.expires_at < now)
    (hc : e.value.participant_count < 2)
    (hcs : st.sessions sid = some cs)
    (hopen : ∀ c ∈ cs, rs c = ReadyState.OPEN)
    (hlen : cs.length < 2) (hnin : cs.contains ws = false)
    (hws : rs ws = ReadyState.OPEN) :
    (SignalingService.handleAuth rs now st ws
        { type := "auth", sessionId := some sid, proof := pf,
          payload := pl }).clients ws =
      some ⟨sid, if cs.length = 0 then Role.initiator else Role.responder,
        true⟩ ∧
    (SignalingService.handleAuth rs now st ws
        { type := "auth", sessionId := some sid, proof := pf,
          payload := pl }).sessions sid = some (cs ++ [ws]) ∧
    (SignalingService.handleAuth rs now st ws
        { type := "auth", sessionId := some sid, proof := pf,
          payload := pl }).store =
      SessionStore.updateSession st.store now (joinStep e.value) ∧
    (ws, authAckMsg (if cs.length = 0 then Role.initiator else Role.responder)
        ((cs.length : Int) + 1)) ∈
      (SignalingService.handleAuth rs now st ws
        { type := "auth", sessionId := some sid, proof := pf,
          payload := pl }).outbox := by
  have hgs := getSession_live st.store now sid e he h1 h2
  have hc2 : ¬ 2 ≤ e.value.participant_count := by omega
  have hjs := joinSession_live st.store now sid e he h1 h2 hc2
  have hstale := filter_stale_nil rs cs hopen
  have hlive := filter_live_self rs cs hopen
  have hcap : ¬ 2 ≤ cs.length := by omega
  have hlen1 : ((cs ++ [ws]).length : Int) = (cs.length : Int) + 1 := by
    simp
  unfold SignalingService.handleAuth
  simp only [hgs, hcs, Option.getD_some, hstale, hlive, Option.isSome_some,
    if_true, SignalingService.applyLeaves, List.length_nil, if_neg hcap, hjs,
    hnin, Bool.false_eq_true, if_false]
  rw [send_of_open rs _ ws _ hws]
  by_cases hfin : (cs ++ [ws]).length = 2
  · rw [if_pos hfin]
    refine ⟨?_, ?_, ?_, ?_⟩
    · rw [foldlSend_clients]
      simp
    · rw [foldlSend_sessions]
      simp
    · rw [foldlSend_store]
    · refine foldlSend_outbox_mem rs readyMsg _ _ _ ?_
      rw [hlen1]
      exact List.mem_append_right _ (List.mem_singleton.mpr rfl)
  · rw [if_neg hfin]
    refine ⟨by simp, by simp, rfl, ?_⟩
    rw [hlen1]
    exact List.mem_append_right _ (List.mem_singleton.mpr rfl)

/-- A relay state holding one fresh session `"s"` and no connections. -/
def freshRelay : RelayState :=
  { clients := fun _ => none
    sessions := fun _ => none
    store := (SessionStore.createSession emptyStore 0 "s" 100).2
    outbox := [] }

/-- The `auth` message for session `"s"`. -/
def authMsgS : SignalingMessage := { type := "auth", sessionId := some "s" }

/-- Counterexample to C5 as stated: a connection whose transport stays
open can have its role changed — if socket 1 authenticates (becoming
`initiator`) and then sends a second `auth` for the same session, the
relay reassigns it `responder` (post-cleanup registry size is 1), so
the role is not fixed for the lifetime of the connection. -/
theorem double_auth_reassigns_role :
    ((SignalingService.handleAuth allOpen 0 freshRelay 1 authMsgS).clients 1).map
        ClientInfo.role = some Role.initiator ∧
    ((SignalingService.handleAuth allOpen 0
        (SignalingService.handleAuth allOpen 0 freshRelay 1 authMsgS) 1
        authMsgS).clients 1).map ClientInfo.role = some Role.responder := by
  constructor
  · decide
  · decide

/-- C5 (amended): on a successful authentication the relay assigns
`initiator` exactly when the post-cleanup registry for the session is
empty (size 0 → 1) and `responder` otherwise (size 1 → 2); the role is
returned in the auth acknowledgment together with `success` and
`participant_count`; the registered record of an open connection is
never changed by other connections' auth attempts or by message
relaying — only a repeated `auth` from the same connection can
reassign its role. -/
theorem role_assignment_and_stability :
    (∀ (rs : Nat → ReadyState) (now : Int) (st : RelayState) (ws : Nat)
        (sid : String) (pf : Option String) (pl : Option JsonValue)
        (e : RedisEntry) (cs : List Nat),
      st.store (getKey sid) = some e → now < e.expiresAtMs →
      ¬ e.value.expires_at < now → e.value.participant_count < 2 →
      st.sessions sid = some cs → (∀ c ∈ cs, rs c = ReadyState.OPEN) →
      cs.length < 2 → cs.contains ws = false → rs ws = ReadyState.OPEN →
      ((SignalingService.handleAuth rs now st ws
          { type := "auth", sessionId := some sid, proof := pf,
            payload := pl }).clients ws =
        some ⟨sid, if cs.length = 0 then Role.initiator else Role.responder,
          true⟩ ∧
       (ws, authAckMsg
          (if cs.length = 0 then Role.initiator else Role.responder)
          ((cs.length : Int) + 1)) ∈
        (SignalingService.handleAuth rs now st ws
          { type := "auth", sessionId := some sid, proof := pf,
            payload := pl }).outbox)) ∧
    (∀ (rs : Nat → ReadyState) (now : Int) (st : RelayState) (ws2 w : Nat)
        (m : SignalingMessage),
      w ≠ ws2 → SignalingService.isStale rs w = false →
      (SignalingService.handleAuth rs now st ws2 m).clients w =
        st.clients w) ∧
    (∀ (rs : Nat → ReadyState) (st : RelayState) (ws2 : Nat)
        (m : SignalingMessage),
      (SignalingService.relayMessage rs st ws2 m).clients = st.clients) :=
  ⟨fun rs now st ws sid pf pl e cs he h1 h2 hc hcs hopen hlen hnin hws =>
    (fun h => ⟨h.1, h.2.2.2⟩)
      (handleAuth_success rs now st ws sid pf pl e cs he h1 h2 hc hcs hopen
        hlen hnin hws),
   fun rs now st ws2 w m hne hw =>
    handleAuth_clients_other rs now st ws2 m w hne hw,
   fun rs st ws2 m => relayMessage_clients rs st ws2 m⟩

/-- A relay state with session `"s"` registered but no connections. -/
def emptySessRelay : RelayState :=
  { clients := fun _ => none
    sessions := fun s => if s = "s" then some [] else none
    store := demoLive
    outbox := [] }

/-- Witness for C5 (amended): socket 1 authenticating first against
`"s"` becomes `initiator` and is acknowledged; another connection's
auth and relayed messages leave socket 2's record alone. -/
theorem role_assignment_and_stability_witness :
    ((SignalingService.handleAuth allOpen 1000 emptySessRelay 1
        authMsgS).clients 1 =
      some ⟨"s",
        if ([] : List Nat).length = 0 then Role.initiator else Role.responder,
        true⟩ ∧
     (1, authAckMsg
        (if ([] : List Nat).length = 0 then Role.initiator else Role.responder)
        ((([] : List Nat).length : Int) + 1)) ∈
      (SignalingService.handleAuth allOpen 1000 emptySessRelay 1
        authMsgS).outbox) ∧
    (SignalingService.handleAuth allOpen 0 demoRelay 1 authMsgS).clients 2 =
      demoRelay.clients 2 ∧
    (SignalingService.relayMessage allOpen demoRelay 1 offerP).clients =
      demoRelay.clients :=
  ⟨role_assignment_and_stability.1 allOpen 1000 emptySessRelay 1 "s" none none
      ⟨⟨"s", 5000, Status.OPEN, 0, 0⟩, 5000⟩ [] rfl (by decide) (by decide)
      (by decide) rfl (fun c hc => absurd hc (List.not_mem_nil c)) (by decide)
      rfl rfl,
   role_assignment_and_stability.2.1 allOpen 0 demoRelay 1 2 authMsgS
     (by decide) (by decide),
   role_assignment_and_stability.2.2 allOpen demoRelay 1 offerP⟩

/-- Transport readiness after socket 1's transport silently died. -/
def deadA : Nat → ReadyState :=
  fun w => if w = 1 then ReadyState.CLOSED else ReadyState.OPEN

/-- Counterexample to C6 as stated: after A (socket 1) authenticates
and silently dies, C (socket 2) authenticating for the same session is
accepted as `initiator`, not `responder` — the reconciliation pass has
emptied the registry, so C sees size 0. -/
theorem reconciliation_role_cex :
    ((SignalingService.handleAuth deadA 0
        (SignalingService.handleAuth allOpen 0 freshRelay 1 authMsgS) 2
        authMsgS).clients 2).map ClientInfo.role = some Role.initiator ∧
    ¬ ((SignalingService.handleAuth deadA 0
        (SignalingService.handleAuth allOpen 0 freshRelay 1 authMsgS) 2
        authMsgS).clients 2).map ClientInfo.role = some Role.responder := by
  constructor
  · decide
  · decide

/-- C6 (amended): if connection A authenticated and its transport then
died without a close event reaching the relay, then when connection C
authenticates for the same session the reconciliation pass evicts A
from the registry, issues exactly one compensating `leave` to the
store (count 1 → 0, back to 1 after C's join, hence ≤ 2), and C is
accepted — as `initiator`, the post-cleanup registry being empty —
with the acknowledgment reporting participant_count 1. -/
theorem reconciliation_evicts_and_accepts (rs : Nat → ReadyState)
    (now : Int) (st : RelayState) (ws a : Nat) (sid : String)
    (pf : Option String) (pl : Option JsonValue) (e : RedisEntry)
    (hcs : st.sessions sid = some [a])
    (hstalea : SignalingService.isStale rs a = true)
    (he : st.store (getKey sid) = some e) (h1 : now < e.expiresAtMs)
    (h2 : ¬ e.value.expires_at < now)
    (hcount : e.value.participant_count = 1)
    (hid : e.value.session_id = sid) (hne : a ≠ ws)
    (hws : rs ws = ReadyState.OPEN) :
    (SignalingService.handleAuth rs now st ws
      { type := "auth", sessionId := some sid, proof := pf,
        payload := pl }).clients a = none ∧
    (SignalingService.handleAuth rs now st ws
      { type := "auth", sessionId := some sid, proof := pf,
        payload := pl }).clients ws = some ⟨sid, Role.initiator, true⟩ ∧
    (SignalingService.handleAuth rs now st ws
      { type := "auth", sessionId := some sid, proof := pf,
        payload := pl }).sessions sid = some [ws] ∧
    ((SignalingService.handleAuth rs now st ws
        { type := "auth", sessionId := some sid, proof := pf,
          payload := pl }).store (getKey sid)).map
      (fun en => en.value.participant_count) = some 1 ∧
    (SignalingService.handleAuth rs now st ws
      { type := "auth", sessionId := some sid, proof := pf,
        payload := pl }).outbox =
      st.outbox ++ [(ws, authAckMsg Role.initiator 1)] := by
  have hgs := getSession_live st.store now sid e he h1 h2
  have hstale1 : List.filter (fun c => SignalingService.isStale rs c) [a] =
      [a] := by
    simp [hstalea]
  have hlive1 : List.filter (fun c => !SignalingService.isStale rs c) [a] =
      ([] : List Nat) := by
    simp [hstalea]
  have hleave : SessionStore.leaveSession st.store now sid =
      redisSetEx st.store now (getKey sid)
        (SessionStore.remainTtl (leaveStep e.value) now) (leaveStep e.value) := by
    rw [leaveSession_live st.store now sid e he h1 h2, updateSession_eq,
      leaveStep_session_id, hid]
  have he' : redisSetEx st.store now (getKey sid)
      (SessionStore.remainTtl (leaveStep e.value) now) (leaveStep e.value)
      (getKey sid) =
      some ⟨leaveStep e.value,
        now + SessionStore.remainTtl (leaveStep e.value) now * 1000⟩ := by
    unfold redisSetEx
    simp
  have ht0 := remainTtl_pos (leaveStep e.value) now
  have h1' : now <
      now + SessionStore.remainTtl (leaveStep e.value) now * 1000 := by
    omega
  have h2' : ¬ (leaveStep e.value).expires_at < now := by
    rw [leaveStep_expires]
    exact h2
  have hc' : ¬ 2 ≤ (leaveStep e.value).participant_count := by
    rw [leaveStep_count, hcount]
    omega
  have hjs := joinSession_live
    (redisSetEx st.store now (getKey sid)
      (SessionStore.remainTtl (leaveStep e.value) now) (leaveStep e.value))
    now sid
    ⟨leaveStep e.value,
      now + SessionStore.remainTtl (leaveStep e.value) now * 1000⟩
    he' h1' h2' hc'
  have hsid2 : (joinStep (leaveStep e.value)).session_id = sid := by
    rw [joinStep_session_id, leaveStep_session_id, hid]
  have hcnt2 : (joinStep (leaveStep e.value)).participant_count = 1 := by
    rw [joinStep_count, leaveStep_count, hcount]
    omega
  unfold SignalingService.handleAuth
  simp only [hgs, hcs, Option.getD_some, hstale1, hlive1, Option.isSome_some,
    if_true, List.length_cons, List.length_nil, SignalingService.applyLeaves,
    hleave, hjs]
  rw [if_neg (by decide : ¬ (2 ≤ 0))]
  have hcn : ([] : List Nat).contains ws = false := rfl
  simp only [hcn, Bool.false_eq_true, if_false, List.nil_append,
    List.length_cons, List.length_nil]
  rw [send_of_open rs _ ws _ hws]
  rw [if_neg (by decide : ¬ (0 + 1 = 2))]
  refine ⟨?_, ?_, ?_, ?_, ?_⟩
  · have hca : ([a] : List Nat).contains a = true :=
      List.elem_eq_true_of_mem (List.mem_singleton.mpr rfl)
    simp [hne, hca]
  · simp
  · simp
  · rw [updateSession_eq, hsid2]
    unfold redisSetEx
    simp [hcnt2]
  · simp

/-- A relay state where socket 1 authenticated for `"s"` (store count
1) and then its transport silently died. -/
def ghostRelay : RelayState :=
  SignalingService.handleAuth allOpen 0 freshRelay 1 authMsgS

/-- Witness for C6 (amended): socket 2 authenticating against the
session whose only registered socket is dead gets the full
reconciliation outcome. -/
theorem reconciliation_evicts_and_accepts_witness :
    (SignalingService.handleAuth deadA 0 ghostRelay 2 authMsgS).clients 1 =
      none ∧
    (SignalingService.handleAuth deadA 0 ghostRelay 2 authMsgS).clients 2 =
      some ⟨"s", Role.initiator, true⟩ ∧
    (SignalingService.handleAuth deadA 0 ghostRelay 2 authMsgS).sessions "s" =
      some [2] ∧
    ((SignalingService.handleAuth deadA 0 ghostRelay 2 authMsgS).store
        (getKey "s")).map (fun en => en.value.participant_count) = some 1 ∧
    (SignalingService.handleAuth deadA 0 ghostRelay 2 authMsgS).outbox =
      ghostRelay.outbox ++ [(2, authAckMsg Role.initiator 1)] :=
  reconciliation_evicts_and_accepts deadA 0 ghostRelay 2 1 "s" none none
    ⟨⟨"s", 100000, Status.JOINED, 1, 0⟩, 100000⟩ (by decide) (by decide)
    (by decide) (by decide) (by decide) (by decide) (by decide) (by decide)
    (by decide)

/-- Witness for C4: socket 3 authenticating against `"s"` while open
sockets 1 and 2 hold it receives `Session is full` and nothing else
changes. -/
theorem third_auth_rejected_witness :
    SignalingService.handleAuth allOpen 1000 demoRelay 3 authMsgS =
      { demoRelay with outbox :=
          demoRelay.outbox ++ [(3, errorMsg "Session is full")] } :=
  third_auth_rejected allOpen 1000 demoRelay 3 "s" none none
    ⟨⟨"s", 5000, Status.OPEN, 0, 0⟩, 5000⟩ [1, 2] rfl (by decide) (by decide)
    rfl (by decide) (fun c _ => rfl) rfl

/-- One mutating operation of the session store, tagged with the
clock reading at which it runs. -/
inductive StoreOp where
  | create (now : Int) (sid : String) (expiry : Int)
  | join (now : Int) (sid : String)
  | leave (now : Int) (sid : String)

/-- Interpretation of a `StoreOp` against the Redis state. -/
def applyOp (st : RedisStore) (op : StoreOp) : RedisStore :=
  match op with
  | StoreOp.create now sid expiry =>
      (SessionStore.createSession st now sid expiry).2
  | StoreOp.join now sid => (SessionStore.joinSession st now sid).2
  | StoreOp.leave now sid => SessionStore.leaveSession st now sid

/-- A session record whose count is in range and whose status is the
pure function of the count. -/
def SessionGood (s : Session) : Prop :=
  0 ≤ s.participant_count ∧ s.participant_count ≤ 2 ∧
    s.status = statusOfCount s.participant_count

/-- All records stored in the Redis key space are good. -/
def StoreInv (st : RedisStore) : Prop :=
  ∀ k e, st k = some e → SessionGood e.value

theorem storeInv_empty : StoreInv emptyStore := by
  intro k e h
  simp [emptyStore] at h

theorem storeInv_setEx (st : RedisStore) (now : Int) (key : String)
    (ttl : Int) (v : Session) (h : StoreInv st) (hv : SessionGood v) :
    StoreInv (redisSetEx st now key ttl v) := by
  intro k e hk
  unfold redisSetEx at hk
  by_cases hkk : k = key
  · rw [if_pos hkk] at hk
    cases hk
    exact hv
  · rw [if_neg hkk] at hk
    exact h k e hk

theorem storeInv_del (st : RedisStore) (key : String) (h : StoreInv st) :
    StoreInv (redisDel st key) := by
  intro k e hk
  unfold redisDel at hk
  by_cases hkk : k = key
  · rw [if_pos hkk] at hk
    cases hk
  · rw [if_neg hkk] at hk
    exact h k e hk

theorem storeInv_update (st : RedisStore) (now : Int) (s : Session)
    (h : StoreInv st) (hs : SessionGood s) :
    StoreInv (SessionStore.updateSession st now s) := by
  rw [updateSession_eq]
  exact storeInv_setEx st now _ _ s h hs

theorem joinStep_good (s : Session) (hs : SessionGood s)
    (hc : s.participant_count < 2) : SessionGood (joinStep s) := by
  obtain ⟨h0, h2, _⟩ := hs
  refine ⟨by rw [joinStep_count]; omega, by rw [joinStep_count]; omega, ?_⟩
  rw [joinStep_count, joinStep_status]
  rcases (by omega : s.participant_count = 0 ∨ s.participant_count = 1) with h | h <;>
    rw [h] <;> rfl

theorem leaveStep_good (s : Session) (hs : SessionGood s) :
    SessionGood (leaveStep s) := by
  obtain ⟨h0, h2, _⟩ := hs
  refine ⟨?_, ?_, ?_⟩
  · rw [leaveStep_count]
    exact le_max_left 0 _
  · rw [leaveStep_count]
    exact max_le (by omega) (by omega)
  · exact leaveStep_status s

theorem storeInv_join (st : RedisStore) (now : Int) (sid : String)
    (h : StoreInv st) : StoreInv (SessionStore.joinSession st now sid).2 := by
  rcases hk : st (getKey sid) with _ | e
  · have hg : SessionStore.getSession st now sid = (none, st) := by
      unfold SessionStore.getSession redisGet
      rw [hk]
    unfold SessionStore.joinSession
    rw [hg]
    exact h
  · by_cases h1 : now < e.expiresAtMs
    · by_cases h2 : e.value.expires_at < now
      · have hg := getSession_logicallyExpired st now sid e hk h1 h2
        unfold SessionStore.joinSession
        rw [hg]
        exact storeInv_del st _ h
      · by_cases hc : 2 ≤ e.value.participant_count
        · have hg := getSession_live st now sid e hk h1 h2
          unfold SessionStore.joinSession
          rw [hg]
          simp only [hc, if_pos]
          exact h
        · rw [joinSession_live st now sid e hk h1 h2 hc]
          exact storeInv_update st now _ h
            (joinStep_good e.value (h _ e hk) (by omega))
    · have hg : SessionStore.getSession st now sid = (none, st) := by
        unfold SessionStore.getSession redisGet
        rw [hk]
        simp [h1]
      unfold SessionStore.joinSession
      rw [hg]
      exact h

theorem storeInv_leave (st : RedisStore) (now : Int) (sid : String)
    (h : StoreInv st) : StoreInv (SessionStore.leaveSession st now sid) := by
  rcases hk : st (getKey sid) with _ | e
  · have hg : SessionStore.getSession st now sid = (none, st) := by
      unfold SessionStore.getSession redisGet
      rw [hk]
    unfold SessionStore.leaveSession
    rw [hg]
    exact h
  · by_cases h1 : now < e.expiresAtMs
    · by_cases h2 : e.value.expires_at < now
      · have hg := getSession_logicallyExpired st now sid e hk h1 h2
        unfold SessionStore.leaveSession
        rw [hg]
        exact storeInv_del st _ h
      · rw [leaveSession_live st now sid e hk h1 h2]
        exact storeInv_update st now _ h (leaveStep_good e.value (h _ e hk))
    · have hg : SessionStore.getSession st now sid = (none, st) := by
        unfold SessionStore.getSession redisGet
        rw [hk]
        simp [h1]
      unfold SessionStore.leaveSession
      rw [hg]
      exact h

theorem storeInv_applyOp (st : RedisStore) (op : StoreOp) (h : StoreInv st) :
    StoreInv (applyOp st op) := by
  cases op with
  | create now sid expiry =>
      refine storeInv_setEx st now _ _ _ h ⟨le_refl 0, ?_, rfl⟩
      show (0 : Int) ≤ 2
      norm_num
  | join now sid => exact storeInv_join st now sid h
  | leave now sid => exact storeInv_leave st now sid h

theorem storeInv_foldl (ops : List StoreOp) (st : RedisStore)
    (h : StoreInv st) : StoreInv (ops.foldl applyOp st) := by
  induction ops generalizing st with
  | nil => exact h
  | cons op rest ih => exact ih _ (storeInv_applyOp st op h)

/-- C10: in every state reachable by `create`, `join` and `leave`
operations, a stored session's status is exactly `OPEN` at count 0,
`JOINED` at count 1, `CLOSED` at count 2, and the count stays within
0..2. -/
theorem status_matches_count (ops : List StoreOp) (k : String)
    (e : RedisEntry) (hk : (ops.foldl applyOp emptyStore) k = some e) :
    0 ≤ e.value.participant_count ∧ e.value.participant_count ≤ 2 ∧
    (e.value.participant_count = 0 → e.value.status = Status.OPEN) ∧
    (e.value.participant_count = 1 → e.value.status = Status.JOINED) ∧
    (e.value.participant_count = 2 → e.value.status = Status.CLOSED) := by
  obtain ⟨ha, hb, hc⟩ := storeInv_foldl ops emptyStore storeInv_empty k e hk
  refine ⟨ha, hb, ?_, ?_, ?_⟩ <;> intro h0 <;> rw [hc, h0] <;> rfl

/-- Witness for C10 on the run `create` then `join`. -/
theorem status_matches_count_witness :
    0 ≤ (1 : Int) ∧ (1 : Int) ≤ 2 ∧
    ((1 : Int) = 0 → Status.JOINED = Status.OPEN) ∧
    ((1 : Int) = 1 → Status.JOINED = Status.JOINED) ∧
    ((1 : Int) = 2 → Status.JOINED = Status.CLOSED) :=
  status_matches_count [StoreOp.create 0 "s" 10, StoreOp.join 5 "s"]
    "session:s" ⟨⟨"s", 10000, Status.JOINED, 1, 0⟩, 9005⟩ (by decide)

/-- Witness for C9 (amended) at the concrete request of 7 seconds. -/
theorem create_writes_open_clamped_witness :
    (postSessions emptyStore 0 "s" (some 7)).1.expires_in_seconds =
      min 7 MAX_EXPIRY ∧
    (postSessions emptyStore 0 "s" (some 7)).2 (getKey "s") =
      some ⟨⟨"s", 0 + min (requestedOrDefault (some 7)) MAX_EXPIRY * 1000,
             Status.OPEN, 0, 0⟩,
            0 + min (requestedOrDefault (some 7)) MAX_EXPIRY * 1000⟩ :=
  ⟨(create_writes_open_clamped emptyStore 0 "s" (some 7) (by decide)).2.1 7
      rfl (by decide),
   (create_writes_open_clamped emptyStore 0 "s" (some 7) (by decide)).2.2⟩
